import Mathlib

/-!
Verification development for the calculexdora calculator core
(token model, token stream, AST, symbol table, Pratt parser, evaluator).

Embedding conventions:

* C++ `double` is modelled by `FP` below: finite values are exact rationals
  (rounding and overflow of finite arithmetic are not modelled), while the
  IEEE special values (signed infinities, signed zeros, NaN) and their
  propagation rules are modelled explicitly, since the code branches on them
  (`rhs == 0.0 || rhs == -0.0`, `result != result`).  Results of
  non-integer powers and of the transcendental library functions are not
  representable as rationals; they are abstracted by the dedicated value
  `FP.unk`, "an unspecified non-NaN double".  No theorem below depends on
  the numeric value of such a result, only on its non-NaN-ness.
* C++ exceptions are modelled with `Except`: parser errors by `ParseErr`,
  evaluation errors by `EvalError`, and the `std::invalid_argument`
  programmer errors thrown by AST constructors by `CtorErr`.
* Undefined behaviour of the source (dereferencing an empty
  `std::optional`, `__builtin_unreachable()`, `std::vector::back()` on an
  empty vector) is made visible as explicit outcomes (`ParseErr.undefinedBehavior`,
  `EvalError.unreachable`, `Option.none`), never silently defined away.
* The recursion of `Parser::parse_expression_recursive` is modelled with an
  explicit fuel parameter; running out of fuel is a distinguished error
  `ParseErr.outOfFuel` that the top-level wrappers make unreachable by
  supplying more fuel than the token count.
-/

deriving instance DecidableEq for Except

/-- Model of a C++ `double`.  `fin q b` is a finite value with exact rational
magnitude `q`; the flag `b` records a negative zero (it is only meaningful
when `q = 0`).  `inf s` is an infinity with sign (`true` = negative).
`unk` abstracts a non-NaN value that is not exactly representable
(non-integer powers, transcendental functions). -/
inductive FP where
  | nan : FP
  | inf (neg : Bool) : FP
  | fin (q : Rat) (negZero : Bool) : FP
  | unk : FP
deriving DecidableEq

/-- Sign of a value, `true` = negative.  For a finite value the negative-zero
flag decides the sign of a zero; for `nan`/`unk` the sign is immaterial. -/
def FP.sign : FP → Bool
  | .nan => false
  | .inf s => s
  | .fin q b => if q = 0 then b else decide (q < 0)
  | .unk => false

def FP.isNaN : FP → Bool
  | .nan => true
  | _ => false

/-- IEEE equality (`==` on doubles): NaN is not equal to anything, the two
zeros are equal (the negative-zero flags are ignored). -/
def FP.feq : FP → FP → Bool
  | .fin q _, .fin q' _ => decide (q = q')
  | .inf s, .inf s' => s == s'
  | .unk, .unk => true
  | _, _ => false

/-- IEEE strict less-than: any comparison with NaN is false.  Comparisons
involving `unk` are not determined by the abstraction and are modelled as
false; no verified property depends on them. -/
def FP.flt : FP → FP → Bool
  | .nan, _ => false
  | _, .nan => false
  | .unk, _ => false
  | _, .unk => false
  | .inf s, .inf s' => s && !s'
  | .inf s, .fin _ _ => s
  | .fin _ _, .inf s => !s
  | .fin q _, .fin q' _ => decide (q < q')

/-- IEEE less-or-equal, defined as less-than or IEEE-equal. -/
def FP.fle (x y : FP) : Bool := FP.flt x y || FP.feq x y

def FP.fneg : FP → FP
  | .nan => .nan
  | .inf s => .inf (!s)
  | .fin q b => if q = 0 then .fin 0 (!b) else .fin (-q) b
  | .unk => .unk

def FP.fabs : FP → FP
  | .nan => .nan
  | .inf _ => .inf false
  | .fin q _ => .fin |q| false
  | .unk => .unk

/-- IEEE addition.  `(+inf) + (-inf) = NaN`; finite addition is exact; the
result is a negative zero only when both operands are negative zeros. -/
def FP.fadd : FP → FP → FP
  | .nan, _ => .nan
  | _, .nan => .nan
  | .inf s, .inf s' => if s == s' then .inf s else .nan
  | .inf s, _ => .inf s
  | _, .inf s => .inf s
  | .unk, _ => .unk
  | _, .unk => .unk
  | .fin q b, .fin q' b' => .fin (q + q') (b && b')

/-- IEEE subtraction.  `(+inf) - (+inf) = NaN`; the result is a negative zero
only for `(-0) - (+0)`. -/
def FP.fsub : FP → FP → FP
  | .nan, _ => .nan
  | _, .nan => .nan
  | .inf s, .inf s' => if s == s' then .nan else .inf s
  | .inf s, _ => .inf s
  | _, .inf s => .inf (!s)
  | .unk, _ => .unk
  | _, .unk => .unk
  | .fin q b, .fin q' b' => .fin (q - q') (b && !b')

/-- IEEE multiplication.  `0 * inf = NaN`; the sign of a zero or infinite
result is the XOR of the operand signs. -/
def FP.fmul : FP → FP → FP
  | .nan, _ => .nan
  | _, .nan => .nan
  | .inf s, .inf s' => .inf (xor s s')
  | .inf s, .fin q b => if q = 0 then .nan else .inf (xor s (FP.sign (.fin q b)))
  | .fin q b, .inf s => if q = 0 then .nan else .inf (xor (FP.sign (.fin q b)) s)
  | .unk, _ => .unk
  | _, .unk => .unk
  | .fin q b, .fin q' b' =>
      .fin (q * q') (xor (FP.sign (.fin q b)) (FP.sign (.fin q' b')))

/-- IEEE division.  `inf / inf = NaN`, `0 / 0 = NaN`, `finite / inf` is a
signed zero, `x / 0` for nonzero finite `x` is a signed infinity. -/
def FP.fdiv : FP → FP → FP
  | .nan, _ => .nan
  | _, .nan => .nan
  | .inf _, .inf _ => .nan
  | .inf s, .fin q b => .inf (xor s (FP.sign (.fin q b)))
  | .fin q b, .inf s => .fin 0 (xor (FP.sign (.fin q b)) s)
  | .unk, _ => .unk
  | _, .unk => .unk
  | .fin q b, .fin q' b' =>
      if q' = 0 then
        if q = 0 then .nan
        else .inf (xor (FP.sign (.fin q b)) (FP.sign (.fin q' b')))
      else .fin (q / q') (xor (FP.sign (.fin q b)) (FP.sign (.fin q' b')))

/-- Exact integer power of a rational (used for `pow` with an integral
exponent). -/
def ratPowInt (q : Rat) (n : Int) : Rat :=
  match n with
  | .ofNat m => q ^ m
  | .negSucc m => (q ^ (m + 1))⁻¹

/-- True when a rational is an integer. -/
def ratIsInt (q : Rat) : Bool := q.den == 1

/-- Model of `std::pow` on doubles, following the C99/IEEE special cases the
evaluator can observe: `pow(x, ±0) = 1` and `pow(+1, y) = 1` even for NaN
arguments; a NaN argument otherwise yields NaN; a finite negative base with a
finite non-integer exponent yields NaN (this is the "complex result" case the
code checks for); integral exponents of finite bases are computed exactly;
a positive finite base with a non-integer exponent yields an unspecified
non-NaN value (`FP.unk`). -/
def FP.fpow (x y : FP) : FP :=
  if (match y with | .fin qe _ => decide (qe = 0) | _ => false) then .fin 1 false
  else if (match x with | .fin qb _ => decide (qb = 1) | _ => false) then .fin 1 false
  else
    match x, y with
    | .nan, _ => .nan
    | _, .nan => .nan
    | .unk, _ => .unk
    | _, .unk => .unk
    | .inf sb, .inf se =>
        if se then .fin 0 false else .inf (sb && false)
    | .fin qb _, .inf se =>
        if qb = -1 then .fin 1 false
        else if |qb| < 1 then (if se then .inf false else .fin 0 false)
        else (if se then .fin 0 false else .inf false)
    | .inf sb, .fin qe _ =>
        if 0 < qe then .inf (sb && ratIsInt qe && decide (qe.num % 2 ≠ 0))
        else .fin 0 (sb && ratIsInt qe && decide (qe.num % 2 ≠ 0))
    | .fin qb b, .fin qe _ =>
        if qb = 0 then
          (if 0 < qe then .fin 0 (b && ratIsInt qe && decide (qe.num % 2 ≠ 0))
           else .inf (b && ratIsInt qe && decide (qe.num % 2 ≠ 0)))
        else if qb < 0 then
          (if ratIsInt qe then .fin (ratPowInt qb qe.num) false else .nan)
        else
          (if ratIsInt qe then .fin (ratPowInt qb qe.num) false else .unk)

/-- Abstraction of `std::sqrt` (only used by the spec-modelled unary
evaluator): NaN propagates, `sqrt(+inf) = +inf`, zeros are returned with
their sign, a positive value gives an unspecified non-NaN result, negative
inputs are screened off by the caller. -/
def FP.fsqrt : FP → FP
  | .nan => .nan
  | .inf s => if s then .nan else .inf false
  | .fin q b => if q = 0 then .fin 0 b else if q < 0 then .nan else .unk
  | .unk => .unk

/-- Abstraction of `std::log` (spec-modelled unary evaluator): positive
inputs give an unspecified non-NaN result, `log(+inf) = +inf`. -/
def FP.flog : FP → FP
  | .nan => .nan
  | .inf s => if s then .nan else .inf false
  | .fin q _ => if q ≤ 0 then .nan else .unk
  | .unk => .unk

/-- Abstraction of `std::sin`/`std::cos`/`std::tan` (spec-modelled unary
evaluator): an infinite argument yields NaN (domain error), a finite one an
unspecified non-NaN value. -/
def FP.ftrig : FP → FP
  | .nan => .nan
  | .inf _ => .nan
  | .fin _ _ => .unk
  | .unk => .unk

/-- Abstraction of `std::asin`/`std::acos` on `|x| <= 1` and of `std::atan`
everywhere (spec-modelled unary evaluator): defined, non-NaN. -/
def FP.farc : FP → FP
  | .nan => .nan
  | .inf _ => .unk
  | .fin _ _ => .unk
  | .unk => .unk

/-- Mirror of `enum class TokenType` (tokens.hpp). -/
inductive TokenType where
  | ERROR_TOKEN | END_OF_FILE | NEWLINE | NUMBER | IDENTIFIER
  | OP_PLUS | OP_MINUS | OP_ASTERISK | OP_SLASH | OP_CARET
  | OP_FUNC_SQRT | OP_FUNC_LOG | OP_FUNC_SIN | OP_FUNC_COS | OP_FUNC_TAN
  | OP_FUNC_ARCSIN | OP_FUNC_ARCCOS | OP_FUNC_ARCTAN
  | ASSIGN | PAREN_L | PAREN_R
deriving DecidableEq

/-- The underlying enumerator values of `TokenType` (`ERROR_TOKEN = -1`, the
rest consecutive).  The source compares token types with `<=`/`>=` on these
values in `is_binary_operator_token` and `is_unary_operator_token`. -/
def TokenType.toInt : TokenType → Int
  | .ERROR_TOKEN => -1
  | .END_OF_FILE => 0
  | .NEWLINE => 1
  | .NUMBER => 2
  | .IDENTIFIER => 3
  | .OP_PLUS => 4
  | .OP_MINUS => 5
  | .OP_ASTERISK => 6
  | .OP_SLASH => 7
  | .OP_CARET => 8
  | .OP_FUNC_SQRT => 9
  | .OP_FUNC_LOG => 10
  | .OP_FUNC_SIN => 11
  | .OP_FUNC_COS => 12
  | .OP_FUNC_TAN => 13
  | .OP_FUNC_ARCSIN => 14
  | .OP_FUNC_ARCCOS => 15
  | .OP_FUNC_ARCTAN => 16
  | .ASSIGN => 17
  | .PAREN_L => 18
  | .PAREN_R => 19

/-- Mirror of class `Token` (tokens.hpp/tokens.cpp): a type tag plus the
payload of the `std::variant` member, which is only populated for `NUMBER`
(a double) and `IDENTIFIER` (a string).  `error` is the default-constructed
error token. -/
inductive Token where
  | error
  | endOfFile
  | newline
  | number (value : FP)
  | identifier (name : String)
  | opPlus | opMinus | opAsterisk | opSlash | opCaret
  | funcSqrt | funcLog | funcSin | funcCos | funcTan
  | funcArcsin | funcArccos | funcArctan
  | assign
  | parenL
  | parenR
deriving DecidableEq

/-- Mirror of `Token::type()`. -/
def Token.type : Token → TokenType
  | .error => .ERROR_TOKEN
  | .endOfFile => .END_OF_FILE
  | .newline => .NEWLINE
  | .number _ => .NUMBER
  | .identifier _ => .IDENTIFIER
  | .opPlus => .OP_PLUS
  | .opMinus => .OP_MINUS
  | .opAsterisk => .OP_ASTERISK
  | .opSlash => .OP_SLASH
  | .opCaret => .OP_CARET
  | .funcSqrt => .OP_FUNC_SQRT
  | .funcLog => .OP_FUNC_LOG
  | .funcSin => .OP_FUNC_SIN
  | .funcCos => .OP_FUNC_COS
  | .funcTan => .OP_FUNC_TAN
  | .funcArcsin => .OP_FUNC_ARCSIN
  | .funcArccos => .OP_FUNC_ARCCOS
  | .funcArctan => .OP_FUNC_ARCTAN
  | .assign => .ASSIGN
  | .parenL => .PAREN_L
  | .parenR => .PAREN_R

/-- Mirror of `Token::get_num()`: the numeric payload for `NUMBER` tokens,
empty otherwise. -/
def Token.get_num : Token → Option FP
  | .number v => some v
  | _ => none

/-- Mirror of `Token::get_ident()`: the name payload for `IDENTIFIER` tokens,
empty otherwise. -/
def Token.get_ident : Token → Option String
  | .identifier s => some s
  | _ => none

/-- Mirror of `Token::get_binary_binding_power()` (tokens.cpp):
`+`/`-` bind with power 1, `*`/`/` with 2, `^` with 3, everything else has
no binary binding power. -/
def Token.get_binary_binding_power (t : Token) : Option Int :=
  match t.type with
  | .OP_PLUS | .OP_MINUS => some 1
  | .OP_ASTERISK | .OP_SLASH => some 2
  | .OP_CARET => some 3
  | _ => none

/-- Mirror of `Token::get_unary_binding_power()` (tokens.cpp).  The source's
`switch` has the eight `OP_FUNC_*` case labels nested inside the compound
statement of the `OP_PLUS`/`OP_MINUS` case; C++ case labels are jump targets,
so control still jumps to them and reaches the `return 4` — the function
returns 5 for `+`/`-`, 4 for every function token, and nothing otherwise. -/
def Token.get_unary_binding_power (t : Token) : Option Int :=
  match t.type with
  | .OP_PLUS | .OP_MINUS => some 5
  | .OP_FUNC_SQRT | .OP_FUNC_LOG | .OP_FUNC_SIN | .OP_FUNC_COS
  | .OP_FUNC_TAN | .OP_FUNC_ARCSIN | .OP_FUNC_ARCCOS | .OP_FUNC_ARCTAN => some 4
  | _ => none

/-- Mirror of `Token::operator==` (tokens.cpp): different types are unequal;
identifier payloads are compared as strings, number payloads with the
floating-point `==` (so NaN payloads compare unequal); all other tokens of
equal type are equal. -/
def Token.tokEq : Token → Token → Bool
  | .number x, .number y => FP.feq x y
  | .identifier s, .identifier s' => decide (s = s')
  | a, b => decide (a.type = b.type)

/-- Mirror of `Token::is_unary_operator_token()`: `-`, `+`, or a type in the
enumerator range `OP_FUNC_SQRT ..= OP_FUNC_ARCTAN`. -/
def Token.is_unary_operator_token (t : Token) : Bool :=
  decide (t.type = .OP_MINUS) || decide (t.type = .OP_PLUS)
    || (decide (TokenType.toInt .OP_FUNC_SQRT ≤ t.type.toInt)
        && decide (t.type.toInt ≤ TokenType.toInt .OP_FUNC_ARCTAN))

/-- Mirror of `Token::is_binary_operator_token()`: a type in the enumerator
range `OP_PLUS ..= OP_CARET`. -/
def Token.is_binary_operator_token (t : Token) : Bool :=
  decide (TokenType.toInt .OP_PLUS ≤ t.type.toInt)
    && decide (t.type.toInt ≤ TokenType.toInt .OP_CARET)

/-- Mirror of `Token::is_right_associative()`. -/
def Token.is_right_associative (t : Token) : Bool :=
  decide (t.type = .OP_CARET)

/-- Mirror of `Token::is_operator_token()`. -/
def Token.is_operator_token (t : Token) : Bool :=
  t.is_unary_operator_token || t.is_binary_operator_token

/-- Mirror of `Token::is_operand_token()`. -/
def Token.is_operand_token (t : Token) : Bool :=
  decide (t.type = .NUMBER) || decide (t.type = .IDENTIFIER)

/-- Mirror of class `TokenList` (token_list.hpp/token_list.cpp).  The source
stores the token vector reversed and consumes from `back()`; the model keeps
the tokens in consumption order (`toks.head` is the next token), which is the
same data under the reversal. -/
structure TokenList where
  toks : List Token
deriving DecidableEq

/-- Mirror of the constructor `TokenList(std::vector<Token>&&)`: if the last
token of the vector is not `END_OF_FILE`, an `END_OF_FILE` token is appended.
On an empty vector the source calls `std::vector::back()`, which is undefined
behaviour; that case is modelled as `none`. -/
def TokenList.ofVec (tokens : List Token) : Option TokenList :=
  match tokens.getLast? with
  | none => none
  | some t =>
      some ⟨if t.type = .END_OF_FILE then tokens else tokens ++ [Token.endOfFile]⟩

/-- Mirror of `TokenList::peek()`: the next token, without consuming it.
The empty-buffer case is undefined behaviour in the source (`back()` on an
empty vector) and unreachable under the `END_OF_FILE` sentinel invariant; it
is mapped to the default-constructed error token. -/
def TokenList.peek (tl : TokenList) : Token :=
  match tl.toks with
  | [] => Token.error
  | t :: _ => t

/-- Mirror of `TokenList::at_end()`: the next token is the `END_OF_FILE`
sentinel. -/
def TokenList.at_end (tl : TokenList) : Bool :=
  decide (tl.peek.type = .END_OF_FILE)

/-- Mirror of `TokenList::next()`: consume and return the next token; if the
stream is at its end, return the sentinel without advancing past it. -/
def TokenList.next (tl : TokenList) : Token × TokenList :=
  if tl.at_end then (tl.peek, tl)
  else
    match tl.toks with
    | [] => (Token.error, tl)
    | t :: rest => (t, ⟨rest⟩)

/-- Modelled from the spec: the definition of `TokenList::give_back` is
declared in token_list.hpp and called by `Parser::parse_next_statement`, but
it is absent from the source files.  Per the spec (section 3.2) it pushes a
token to the front, making it the next result of peek/next. -/
def TokenList.give_back (tl : TokenList) (tok : Token) : TokenList :=
  ⟨tok :: tl.toks⟩

/-- Mirror of class `SymbolTable` (symbol_table.hpp/symbol_table.cpp): a map
from identifier names to values, modelled as an association list with at most
one binding per name. -/
structure SymbolTable where
  vars : List (String × FP)
deriving DecidableEq

/-- Insert-or-overwrite on the association list underlying a symbol table
(the behaviour of `std::unordered_map::operator[]` followed by assignment). -/
def setAssoc : List (String × FP) → String → FP → List (String × FP)
  | [], n, v => [(n, v)]
  | (k, w) :: rest, n, v =>
      if k = n then (k, v) :: rest else (k, w) :: setAssoc rest n v

/-- First binding of a name in the association list, if any
(`std::unordered_map::find`). -/
def lookupAssoc : List (String × FP) → String → Option FP
  | [], _ => none
  | (k, w) :: rest, n => if k = n then some w else lookupAssoc rest n

/-- Mirror of the default constructor `SymbolTable()`: the table pre-seeded
with the four mathematical constants.  The decimal literals of the source are
modelled as exact rationals (the source stores their double roundings). -/
def SymbolTable.default : SymbolTable :=
  ⟨[("pi", FP.fin (3.14159265358979323846 : Rat) false),
    ("euler", FP.fin (2.71828182845904523536 : Rat) false),
    ("phi", FP.fin (1.61803398874989484820 : Rat) false),
    ("eulerMascheroni", FP.fin (0.57721566490153286060 : Rat) false)]⟩

/-- Mirror of `SymbolTable::get(const Token&)`: looks up the identifier
payload of the token.  The source unconditionally dereferences
`ident.get_ident()`, which is undefined behaviour for non-identifier tokens;
that case is modelled as an absent result (callers guarantee an identifier). -/
def SymbolTable.get (s : SymbolTable) (ident : Token) : Option FP :=
  match ident.get_ident with
  | some n => lookupAssoc s.vars n
  | none => none

/-- Mirror of `SymbolTable::set(const Token&, double)`: create-or-overwrite
the binding for the token's identifier payload.  As in `get`, a
non-identifier token is undefined behaviour in the source; the model leaves
the table unchanged in that unreachable case. -/
def SymbolTable.set (s : SymbolTable) (ident : Token) (value : FP) : SymbolTable :=
  match ident.get_ident with
  | some n => ⟨setAssoc s.vars n value⟩
  | none => s

/-- Mirror of `enum class ExpressionType` (syntax_tree.hpp). -/
inductive ExpressionType where
  | OPERAND | BIN_OP | UNARY_OP
deriving DecidableEq

/-- Mirror of the `Expression` variant (syntax_tree.hpp): a tagged sum of the
three expression shapes `OperandExpression`, `BinOpExpression` and
`UnaryOpExpression`, each owning its children.  `UnaryOpExpression` is
declared in the header but its member definitions are absent from the source
files; its evaluation below is modelled from the spec. -/
inductive Expression where
  | operandE (tok : Token)
  | binOpE (oper : Token) (lhs rhs : Expression)
  | unaryOpE (oper : Token) (operand : Expression)
deriving DecidableEq

/-- Mirror of `Expression::type()`. -/
def Expression.exprType : Expression → ExpressionType
  | .operandE _ => .OPERAND
  | .binOpE _ _ _ => .BIN_OP
  | .unaryOpE _ _ => .UNARY_OP

/-- Mirror of the `clone()` methods of the three expression classes: a deep
structural copy. -/
def Expression.clone : Expression → Expression
  | .operandE tok => .operandE tok
  | .binOpE oper lhs rhs => .binOpE oper lhs.clone rhs.clone
  | .unaryOpE oper operand => .unaryOpE oper operand.clone

/-- Model of the `std::invalid_argument` programmer errors thrown by the AST
constructors (a different exception family than parser errors). -/
inductive CtorErr where
  | invalidArgument (msg : String)
deriving DecidableEq

/-- Mirror of `Expression::operand` / the `OperandExpression` constructor
(syntax_tree.cpp): throws `std::invalid_argument` unless the token is an
operand token. -/
def Expression.operand (tok : Token) : Except CtorErr Expression :=
  if !tok.is_operand_token then
    .error (.invalidArgument "Invalid token for operand")
  else .ok (.operandE tok)

/-- Mirror of `Expression::bin_op` / the `BinOpExpression` constructor
(syntax_tree.cpp): the operator check is `is_operator_token()` — not
`is_binary_operator_token()` — followed by the null checks on the children
(absent children are modelled as `none`). -/
def Expression.bin_op (oper : Token) (lhs rhs : Option Expression) :
    Except CtorErr Expression :=
  if !oper.is_operator_token then
    .error (.invalidArgument "Invalid token for binary operation")
  else
    match lhs, rhs with
    | some l, some r => .ok (.binOpE oper l r)
    | _, _ => .error (.invalidArgument "Invalid expression pointer(s) for binary operation")

/-- Modelled from the spec: the definition of the `UnaryOpExpression`
constructor (and of `Expression::unary_op`) is declared in syntax_tree.hpp
but absent from the source files.  Per the header documentation and spec
section 3.3, it throws `std::invalid_argument` unless the operator token is a
unary operator/function token and the child is present. -/
def Expression.unary_op (oper : Token) (operand : Option Expression) :
    Except CtorErr Expression :=
  if !oper.is_unary_operator_token then
    .error (.invalidArgument "Invalid token for unary operation")
  else
    match operand with
    | some e => .ok (.unaryOpE oper e)
    | none => .error (.invalidArgument "Invalid expression pointer for unary operation")

/-- Mirror of the evaluation-error class hierarchy (eval_errors.hpp), each
error owning a clone of the offending subexpression.  `unreachable` models
the `__builtin_unreachable()` in the default case of
`BinOpExpression::evaluate` (undefined behaviour, reachable only through a
binary node whose operator is not one of the five binary operators). -/
inductive EvalError where
  | undefinedVariable (problem : Expression)
  | divideByZero (problem : Expression)
  | complexResult (problem : Expression)
  | unreachable
deriving DecidableEq

/-- Modelled from the spec: the definition of `UnaryOpExpression::evaluate`
is declared in syntax_tree.hpp but absent from the source files.  Per spec
section 4.2: unary plus is the identity, unary minus negates; `sqrt` of a
negative operand, `log` of a non-positive operand and `arcsin`/`arccos` of an
operand of magnitude above one raise ComplexResult; and in every unary
operation a NaN host result raises ComplexResult with a clone of the node. -/
def unaryEvalOp (oper : Token) (v : FP) (node : Expression) : Except EvalError FP :=
  let raiseComplex : Except EvalError FP := .error (.complexResult node.clone)
  let checkNaN : FP → Except EvalError FP := fun r =>
    if r.isNaN then raiseComplex else .ok r
  match oper.type with
  | .OP_PLUS => checkNaN v
  | .OP_MINUS => checkNaN v.fneg
  | .OP_FUNC_SQRT =>
      if FP.flt v (.fin 0 false) then raiseComplex else checkNaN v.fsqrt
  | .OP_FUNC_LOG =>
      if FP.fle v (.fin 0 false) then raiseComplex else checkNaN v.flog
  | .OP_FUNC_SIN | .OP_FUNC_COS | .OP_FUNC_TAN => checkNaN v.ftrig
  | .OP_FUNC_ARCSIN | .OP_FUNC_ARCCOS =>
      if FP.flt (.fin 1 false) v.fabs then raiseComplex else checkNaN v.farc
  | .OP_FUNC_ARCTAN => checkNaN v.farc
  | _ => .error .unreachable

/-- Mirror of the `evaluate` methods (syntax_tree.cpp).  An operand returns
its numeric payload, or looks its identifier up in the symbol table and
raises UndefinedVariable with a clone of itself when absent.  A binary node
evaluates `lhs` then `rhs`, then combines: `/` raises DivideByZero with a
clone of the node when the divisor compares IEEE-equal to `0.0` or `-0.0`
(the source check `rhs_value == 0.0 || rhs_value == -0.0`); `^` raises
ComplexResult with a clone of the node when `pow` returns NaN (the source
check `result != result`); `+`, `-` and `*` return the host result
unconditionally.  A unary node uses the spec-modelled `unaryEvalOp`. -/
def Expression.evaluate : Expression → SymbolTable → Except EvalError FP
  | .operandE tok, symbols =>
      match tok with
      | .number v => .ok v
      | _ =>
          match symbols.get tok with
          | some v => .ok v
          | none => .error (.undefinedVariable (Expression.operandE tok).clone)
  | .binOpE oper lhs rhs, symbols =>
      match lhs.evaluate symbols with
      | .error e => .error e
      | .ok lhs_value =>
          match rhs.evaluate symbols with
          | .error e => .error e
          | .ok rhs_value =>
              match oper.type with
              | .OP_PLUS => .ok (FP.fadd lhs_value rhs_value)
              | .OP_MINUS => .ok (FP.fsub lhs_value rhs_value)
              | .OP_ASTERISK => .ok (FP.fmul lhs_value rhs_value)
              | .OP_SLASH =>
                  if FP.feq rhs_value (.fin 0 false) || FP.feq rhs_value (.fin 0 true) then
                    .error (.divideByZero (Expression.binOpE oper lhs rhs).clone)
                  else .ok (FP.fdiv lhs_value rhs_value)
              | .OP_CARET =>
                  let result := FP.fpow lhs_value rhs_value
                  if !FP.feq result result then
                    .error (.complexResult (Expression.binOpE oper lhs rhs).clone)
                  else .ok result
              | _ => .error .unreachable
  | .unaryOpE oper operand, symbols =>
      match operand.evaluate symbols with
      | .error e => .error e
      | .ok v => unaryEvalOp oper v (Expression.unaryOpE oper operand)

/-- Mirror of class `Assignment` (syntax_tree.hpp): an identifier token and
an owned right-hand-side expression. -/
structure Assignment where
  variable_lhs : Token
  rhs : Expression
deriving DecidableEq

/-- Mirror of the `Assignment` constructor (syntax_tree.cpp): throws
`std::invalid_argument` unless the left-hand side is an identifier token and
the right-hand-side pointer is non-null. -/
def Assignment.mkChecked (variable_lhs : Token) (rhs : Option Expression) :
    Except CtorErr Assignment :=
  if variable_lhs.type ≠ .IDENTIFIER then
    .error (.invalidArgument "Left-hand sife of assignment expression must be an identifier")
  else
    match rhs with
    | some e => .ok ⟨variable_lhs, e⟩
    | none => .error (.invalidArgument "Right-hand side pointer of assignment expression is null")

/-- Mirror of `Assignment::execute` (syntax_tree.cpp): evaluate the
right-hand side against the table, then — only on success — store the value
under the left-hand identifier.  The state-passing model returns the table
unchanged together with the propagated error when evaluation fails. -/
def Assignment.execute (a : Assignment) (symbols : SymbolTable) :
    SymbolTable × Option EvalError :=
  match a.rhs.evaluate symbols with
  | .error e => (symbols, some e)
  | .ok assign_val => (symbols.set a.variable_lhs assign_val, none)

/-- Mirror of class `Statement` (syntax_tree.hpp): an expression or an
assignment. -/
inductive Statement where
  | expression (expr : Expression)
  | assignment (assign : Assignment)
deriving DecidableEq

/-- Mirror of the parser-error class hierarchy (parser_errors.hpp/.cpp).
`expectedOperator` is the `ExpectedToken` specialization whose expected list
is the five binary-operator kinds.  `invalidArgument` records an
`std::invalid_argument` escaping from an AST constructor (a different
exception family in the source).  `undefinedBehavior` marks the dereference
of an empty binding-power optional in the infix loop.  `outOfFuel` is the
fuel-exhaustion artifact of the embedding, unreachable from the top-level
wrappers. -/
inductive ParseErr where
  | expectedToken (expected : List TokenType) (actual : Token)
  | expectedOperator (actual : Token)
  | mismatchedParentheses (paren : Token) (nearby : Token)
  | invalidArgument (msg : String)
  | undefinedBehavior
  | outOfFuel
deriving DecidableEq

/-- Mirror of the converting constructor `Token(TokenType)` (tokens.cpp),
used implicitly by `Parser::parse_assignment` when building an
`ExpectedToken` from a bare type: throws `std::invalid_argument` for
`NUMBER`/`IDENTIFIER`, otherwise builds the payload-free token. -/
def Token.ofType : TokenType → Except CtorErr Token
  | .NUMBER => .error (.invalidArgument "No token info provided for number/identifier token. Use Token::from_number() or Token::from_ident() instead")
  | .IDENTIFIER => .error (.invalidArgument "No token info provided for number/identifier token. Use Token::from_number() or Token::from_ident() instead")
  | .ERROR_TOKEN => .ok .error
  | .END_OF_FILE => .ok .endOfFile
  | .NEWLINE => .ok .newline
  | .OP_PLUS => .ok .opPlus
  | .OP_MINUS => .ok .opMinus
  | .OP_ASTERISK => .ok .opAsterisk
  | .OP_SLASH => .ok .opSlash
  | .OP_CARET => .ok .opCaret
  | .OP_FUNC_SQRT => .ok .funcSqrt
  | .OP_FUNC_LOG => .ok .funcLog
  | .OP_FUNC_SIN => .ok .funcSin
  | .OP_FUNC_COS => .ok .funcCos
  | .OP_FUNC_TAN => .ok .funcTan
  | .OP_FUNC_ARCSIN => .ok .funcArcsin
  | .OP_FUNC_ARCCOS => .ok .funcArccos
  | .OP_FUNC_ARCTAN => .ok .funcArctan
  | .ASSIGN => .ok .assign
  | .PAREN_L => .ok .parenL
  | .PAREN_R => .ok .parenR

/-- Modelled from the spec: `Token::get_binding_power()` is called by
`Parser::parse_expression_recursive` but is neither declared nor defined
anywhere in the source files.  Spec section 4.1.2's infix loop reads the
operator's *binary* binding power, so the call is modelled as
`get_binary_binding_power`. -/
def Token.get_binding_power (t : Token) : Option Int :=
  t.get_binary_binding_power

/-- Lift an `std::invalid_argument` escaping an AST constructor into the
parse outcome. -/
def liftCtor {α : Type} : Except CtorErr α → Except ParseErr α
  | .ok a => .ok a
  | .error (.invalidArgument m) => .error (.invalidArgument m)

mutual

/-- Mirror of `Parser::parse_expression_recursive` (parser.cpp).  The prefix
position accepts a `NUMBER`/`IDENTIFIER` operand or a parenthesized
subexpression (re-parsed with minimum binding power 0 and requiring a
`PAREN_R` after it, else MismatchedParentheses); every other first token —
including the unary operators the header's AST declares — raises
ExpectedToken listing `IDENTIFIER`, `NUMBER`, `PAREN_L`.  The resulting
left-hand side is fed to the infix loop.  `fuel` bounds the recursion depth
of the embedding. -/
def parse_expression_recursive (fuel : Nat) (minimal_binding_power : Int)
    (tokens : TokenList) : Except ParseErr (Expression × TokenList) :=
  match fuel with
  | 0 => .error .outOfFuel
  | fuel + 1 =>
    let (first_tok, tokens) := tokens.next
    match first_tok.type with
    | .NUMBER | .IDENTIFIER =>
        match liftCtor (Expression.operand first_tok) with
        | .error e => .error e
        | .ok lhs => parse_expression_loop fuel minimal_binding_power lhs tokens
    | .PAREN_L =>
        match parse_expression_recursive fuel 0 tokens with
        | .error e => .error e
        | .ok (tmp, tokens) =>
            let (after_paren, tokens) := tokens.next
            if after_paren.type ≠ .PAREN_R then
              .error (.mismatchedParentheses first_tok after_paren)
            else parse_expression_loop fuel minimal_binding_power tmp tokens
    | _ => .error (.expectedToken [.IDENTIFIER, .NUMBER, .PAREN_L] first_tok)

/-- Mirror of the `while(true)` infix loop inside
`Parser::parse_expression_recursive` (parser.cpp).  `END_OF_FILE`, `NEWLINE`
and `PAREN_R` end the expression; a non-operator token raises
ExpectedOperator (note the source checks `is_operator_token()`, so a
unary-only function token passes); then the operator's binding power is
dereferenced (`none` is an empty-optional dereference, undefined behaviour);
the associativity rule stops on `bp < min` for `^` and `bp <= min` for the
left-associative operators; otherwise the operator is consumed, a right-hand
side is parsed with the operator's binding power as the new minimum, and the
two sides are combined through `Expression::bin_op`. -/
def parse_expression_loop (fuel : Nat) (minimal_binding_power : Int)
    (lhs : Expression) (tokens : TokenList) : Except ParseErr (Expression × TokenList) :=
  match fuel with
  | 0 => .error .outOfFuel
  | fuel + 1 =>
    let operator_tok := tokens.peek
    match operator_tok.type with
    | .END_OF_FILE | .NEWLINE | .PAREN_R => .ok (lhs, tokens)
    | _ =>
      if !operator_tok.is_operator_token then
        .error (.expectedOperator operator_tok)
      else
        match operator_tok.get_binding_power with
        | none => .error .undefinedBehavior
        | some current_binding_power =>
          if (current_binding_power < minimal_binding_power
                && operator_tok.type = .OP_CARET)
              || (current_binding_power ≤ minimal_binding_power
                && operator_tok.type ≠ .OP_CARET) then
            .ok (lhs, tokens)
          else
            let (_, tokens) := tokens.next
            match parse_expression_recursive fuel current_binding_power tokens with
            | .error e => .error e
            | .ok (rhs, tokens) =>
                match liftCtor (Expression.bin_op operator_tok (some lhs) (some rhs)) with
                | .error e => .error e
                | .ok lhs' => parse_expression_loop fuel minimal_binding_power lhs' tokens

end

/-- Mirror of `Parser::parse_expression`: the recursive worker with minimum
binding power `-1`.  The fuel is a bound on the recursion depth of the
embedding; one more than the token count always suffices for the inputs the
theorems below exercise. -/
def Parser.parse_expression (tokens : TokenList) : Except ParseErr (Expression × TokenList) :=
  parse_expression_recursive (tokens.toks.length + 1) (-1) tokens

/-- Mirror of `Parser::parse_assignment` (parser.cpp): requires the current
token to be `ASSIGN` (raising ExpectedToken otherwise, through the
`Token(TokenType)` conversion of the peeked type), consumes it, parses the
right-hand side with `parse_expression`, and builds the assignment. -/
def Parser.parse_assignment (consumed_var_token : Token) (tokens : TokenList) :
    Except ParseErr (Assignment × TokenList) :=
  if tokens.peek.type ≠ .ASSIGN then
    match liftCtor (Token.ofType tokens.peek.type) with
    | .error e => .error e
    | .ok t => .error (.expectedToken [.ASSIGN] t)
  else
    let (_, tokens) := tokens.next
    match Parser.parse_expression tokens with
    | .error e => .error e
    | .ok (rhs, tokens) =>
        match liftCtor (Assignment.mkChecked consumed_var_token (some rhs)) with
        | .error e => .error e
        | .ok a => .ok (a, tokens)

/-- Mirror of `Parser::parse_next_statement` (parser.cpp): a leading
identifier followed by `ASSIGN` becomes an assignment; a leading identifier
not followed by `ASSIGN` is given back to the stream and the line is parsed
as an expression; any other leading token parses as an expression. -/
def Parser.parse_next_statement (tokens : TokenList) :
    Except ParseErr (Statement × TokenList) :=
  if tokens.peek.type ≠ .IDENTIFIER then
    match Parser.parse_expression tokens with
    | .error e => .error e
    | .ok (e, tokens) => .ok (.expression e, tokens)
  else
    let (first_tok, tokens) := tokens.next
    if tokens.peek.type ≠ .ASSIGN then
      let tokens := tokens.give_back first_tok
      match Parser.parse_expression tokens with
      | .error e => .error e
      | .ok (e, tokens) => .ok (.expression e, tokens)
    else
      match Parser.parse_assignment first_tok tokens with
      | .error e => .error e
      | .ok (a, tokens) => .ok (.assignment a, tokens)

/-- The IEEE self-comparison used by the source's NaN check
(`result != result`): a value compares equal to itself exactly when it is
not NaN. -/
lemma FP.feq_self (x : FP) : FP.feq x x = !x.isNaN := by
  cases x <;> simp [FP.feq, FP.isNaN]

/-- Looking a name up right after setting it yields the freshly set value. -/
lemma lookupAssoc_setAssoc (l : List (String × FP)) (n : String) (v : FP) :
    lookupAssoc (setAssoc l n v) n = some v := by
  induction l with
  | nil => simp [setAssoc, lookupAssoc]
  | cons p rest ih =>
      by_cases h : p.1 = n <;> simp [setAssoc, lookupAssoc, h, ih]

/-- An operand token is a number or an identifier. -/
lemma operand_token_shape (t : Token) (h : t.is_operand_token = true) :
    (∃ v, t = Token.number v) ∨ (∃ s, t = Token.identifier s) := by
  cases t <;> simp_all [Token.is_operand_token, Token.type]

/-- Token sequence of the input `+-(2 - -2)*+3` (the sequence the scanner
contract of spec section 6.1 produces for it). -/
def unaryTestTokens : List Token :=
  [Token.opPlus, Token.opMinus, Token.parenL, Token.number (FP.fin 2 false),
   Token.opMinus, Token.opMinus, Token.number (FP.fin 2 false), Token.parenR,
   Token.opAsterisk, Token.opPlus, Token.number (FP.fin 3 false)]

/-- C1: the claim states that a leading unary-operator token (`Plus`,
`Minus`, or a function token) is consumed and parsed into a unary expression,
so that `+-(2 - -2)*+3` parses and evaluates to `-12`.  The source's
`parse_expression_recursive` has no unary case in its prefix position:
on this input the statement parse raises ExpectedToken (expecting
`IDENTIFIER`, `NUMBER` or `PAREN_L`) at the leading `Plus`, contradicting
the claim and the repository's own test "Operadores unarios". -/
theorem c1_unary_prefix_rejected :
    TokenList.ofVec unaryTestTokens = some ⟨unaryTestTokens ++ [Token.endOfFile]⟩
    ∧ Parser.parse_next_statement ⟨unaryTestTokens ++ [Token.endOfFile]⟩
        = .error (.expectedToken [.IDENTIFIER, .NUMBER, .PAREN_L] Token.opPlus) := by
  constructor
  · rfl
  · decide

/-- C2 (counterexample): evaluating the `Plus` node whose children evaluate
to `+infinity` and `-infinity` returns NaN as an ordinary result — no
ComplexResult is raised, contradicting the claim that every binary operation
checks its host result for NaN. -/
theorem c2_plus_inf_nan_returned :
    (Expression.binOpE Token.opPlus
        (Expression.operandE (Token.number (FP.inf false)))
        (Expression.operandE (Token.number (FP.inf true)))).evaluate ⟨[]⟩
      = .ok FP.nan := by decide

/-- C2 (amended): among the binary operations only `Caret` checks its host
result for NaN and raises ComplexResult with a clone of the node; `Plus`,
`Minus` and `Asterisk` — and `Slash` when the divisor is not an IEEE zero —
return the host floating-point result unconditionally, NaN included. -/
theorem c2_only_caret_checks_nan (lhs rhs : Expression) (s : SymbolTable) (vl vr : FP)
    (hl : lhs.evaluate s = .ok vl) (hr : rhs.evaluate s = .ok vr) :
    (Expression.binOpE Token.opPlus lhs rhs).evaluate s = .ok (FP.fadd vl vr)
    ∧ (Expression.binOpE Token.opMinus lhs rhs).evaluate s = .ok (FP.fsub vl vr)
    ∧ (Expression.binOpE Token.opAsterisk lhs rhs).evaluate s = .ok (FP.fmul vl vr)
    ∧ ((FP.feq vr (.fin 0 false) || FP.feq vr (.fin 0 true)) = false →
        (Expression.binOpE Token.opSlash lhs rhs).evaluate s = .ok (FP.fdiv vl vr))
    ∧ ((FP.fpow vl vr).isNaN = true →
        (Expression.binOpE Token.opCaret lhs rhs).evaluate s
          = .error (.complexResult ((Expression.binOpE Token.opCaret lhs rhs).clone)))
    ∧ ((FP.fpow vl vr).isNaN = false →
        (Expression.binOpE Token.opCaret lhs rhs).evaluate s = .ok (FP.fpow vl vr)) := by
  refine ⟨?_, ?_, ?_, ?_, ?_, ?_⟩
  · simp [Expression.evaluate, hl, hr, Token.type]
  · simp [Expression.evaluate, hl, hr, Token.type]
  · simp [Expression.evaluate, hl, hr, Token.type]
  · intro hz
    simp [Expression.evaluate, hl, hr, Token.type, hz]
  · intro hnan
    simp [Expression.evaluate, hl, hr, Token.type, FP.feq_self, hnan]
  · intro hok
    simp [Expression.evaluate, hl, hr, Token.type, FP.feq_self, hok]

/-- C2 (witness): a concrete instance of the Caret branch — `(-1) ^ (1/2)`
is NaN for the host `pow`, so the evaluation raises ComplexResult with a
clone of the node. -/
theorem c2_only_caret_checks_nan_witness :
    (Expression.binOpE Token.opCaret
        (Expression.operandE (Token.number (FP.fin (-1) false)))
        (Expression.operandE (Token.number (FP.fin (Rat.mk' 1 2) false)))).evaluate ⟨[]⟩
      = .error (.complexResult ((Expression.binOpE Token.opCaret
          (Expression.operandE (Token.number (FP.fin (-1) false)))
          (Expression.operandE (Token.number (FP.fin (Rat.mk' 1 2) false)))).clone)) :=
  (c2_only_caret_checks_nan
    (Expression.operandE (Token.number (FP.fin (-1) false)))
    (Expression.operandE (Token.number (FP.fin (Rat.mk' 1 2) false)))
    ⟨[]⟩ (FP.fin (-1) false) (FP.fin (Rat.mk' 1 2) false) rfl rfl).2.2.2.2.1 (by decide)

/-- C3: the claim states that constructing a binary node fails with
InvalidArgument whenever the operator is not a binary-operator token, in
particular for any unary-only `Func*` token.  The source's `BinOpExpression`
constructor actually checks `is_operator_token()` (unary or binary), so a
`FuncSqrt` operator with two present children is accepted — contradicting
the claim and the constructor's own header documentation, which promises the
binary-operator check. -/
theorem c3_binop_ctor_accepts_func_token :
    Expression.bin_op Token.funcSqrt
        (some (Expression.operandE (Token.number (FP.fin 1 false))))
        (some (Expression.operandE (Token.number (FP.fin 2 false))))
      = .ok (Expression.binOpE Token.funcSqrt
          (Expression.operandE (Token.number (FP.fin 1 false)))
          (Expression.operandE (Token.number (FP.fin 2 false))))
    ∧ Token.is_binary_operator_token Token.funcSqrt = false := by decide

/-- C4 (counterexample): with a unary-only `FuncSqrt` token in infix
position (token stream `1 sqrt 2`), the parse does not raise
ExpectedOperator — the source's check is `is_operator_token()`, which the
function token passes; the parse instead dereferences the token's undefined
binary binding power (undefined behaviour in the source). -/
theorem c4_func_infix_not_expected_operator :
    Parser.parse_expression ⟨[Token.number (FP.fin 1 false), Token.funcSqrt,
        Token.number (FP.fin 2 false), Token.endOfFile]⟩ = .error .undefinedBehavior
    ∧ Parser.parse_expression ⟨[Token.number (FP.fin 1 false), Token.funcSqrt,
        Token.number (FP.fin 2 false), Token.endOfFile]⟩
      ≠ .error (.expectedOperator Token.funcSqrt) := by decide

/-- C4 (amended): in the infix loop, for a peeked token that is not
`EndOfInput`, `Newline` or `ParenR`, the parser raises ExpectedOperator
citing that token when the token is not an operator token at all (neither
binary nor unary); a unary-only `Func*` token passes the check. -/
theorem c4_expected_operator_on_non_operator (fuel : Nat)
    (minimal_binding_power : Int) (lhs : Expression) (tl : TokenList)
    (h1 : tl.peek.type ≠ .END_OF_FILE) (h2 : tl.peek.type ≠ .NEWLINE)
    (h3 : tl.peek.type ≠ .PAREN_R)
    (hop : tl.peek.is_operator_token = false) :
    parse_expression_loop (fuel + 1) minimal_binding_power lhs tl
      = .error (.expectedOperator tl.peek) := by
  rw [parse_expression_loop]
  rcases htype : tl.peek.type <;> simp_all [htype, hop]

/-- C4 (witness): a concrete non-operator token (`Assign`) in infix position
raises ExpectedOperator citing it. -/
theorem c4_expected_operator_on_non_operator_witness :
    parse_expression_loop 1 (-1) (Expression.operandE (Token.number (FP.fin 1 false)))
        ⟨[Token.assign, Token.endOfFile]⟩
      = .error (.expectedOperator Token.assign) :=
  c4_expected_operator_on_non_operator 0 (-1) _ _ (by decide) (by decide) (by decide)
    (by decide)

/-- C5: `get_unary_binding_power` returns 5 exactly for `Plus`/`Minus`, 4
exactly for the eight function tokens, and nothing for every other token —
the source's mislabeled switch block notwithstanding (its nested case labels
are still reachable jump targets in C++). -/
theorem c5_unary_binding_power_values (t : Token) :
    t.get_unary_binding_power =
      if t.type = .OP_PLUS ∨ t.type = .OP_MINUS then some 5
      else if t.type = .OP_FUNC_SQRT ∨ t.type = .OP_FUNC_LOG
          ∨ t.type = .OP_FUNC_SIN ∨ t.type = .OP_FUNC_COS
          ∨ t.type = .OP_FUNC_TAN ∨ t.type = .OP_FUNC_ARCSIN
          ∨ t.type = .OP_FUNC_ARCCOS ∨ t.type = .OP_FUNC_ARCTAN then some 4
      else none := by
  cases t <;> rfl

/-- C6: executing an assignment is all-or-nothing — if the right-hand side
raises an evaluation error, the error propagates and the symbol table is
returned unchanged; if it evaluates to `v`, the table is updated and `get`
on the assigned identifier immediately returns `v`. -/
theorem c6_assignment_all_or_nothing (n : String) (rhs : Expression) (s : SymbolTable) :
    (∀ e : EvalError, rhs.evaluate s = .error e →
        Assignment.execute ⟨Token.identifier n, rhs⟩ s = (s, some e))
    ∧ (∀ v : FP, rhs.evaluate s = .ok v →
        Assignment.execute ⟨Token.identifier n, rhs⟩ s
          = (s.set (Token.identifier n) v, none)
        ∧ (s.set (Token.identifier n) v).get (Token.identifier n) = some v) := by
  constructor
  · intro e he
    simp [Assignment.execute, he]
  · intro v hv
    constructor
    · simp [Assignment.execute, hv]
    · simp [SymbolTable.set, SymbolTable.get, Token.get_ident, lookupAssoc_setAssoc]

/-- C6 (witness): assigning the literal 2 to `a` over the empty table stores
the binding and `get` returns it. -/
theorem c6_assignment_all_or_nothing_witness :
    Assignment.execute ⟨Token.identifier "a",
        Expression.operandE (Token.number (FP.fin 2 false))⟩ ⟨[]⟩
      = (SymbolTable.set ⟨[]⟩ (Token.identifier "a") (FP.fin 2 false), none)
    ∧ (SymbolTable.set ⟨[]⟩ (Token.identifier "a") (FP.fin 2 false)).get
        (Token.identifier "a") = some (FP.fin 2 false) :=
  (c6_assignment_all_or_nothing "a"
    (Expression.operandE (Token.number (FP.fin 2 false))) ⟨[]⟩).2 (FP.fin 2 false) rfl

/-- C7: a `Slash` node first evaluates both children (errors propagate, left
first); with both child values available it raises DivideByZero carrying a
clone of the division node exactly when the right value is an IEEE zero of
either sign, and otherwise returns the left value divided by the right. -/
theorem c7_slash_divide_by_zero_iff (lhs rhs : Expression) (s : SymbolTable) :
    (∀ e : EvalError, lhs.evaluate s = .error e →
        (Expression.binOpE Token.opSlash lhs rhs).evaluate s = .error e)
    ∧ (∀ (vl : FP) (e : EvalError), lhs.evaluate s = .ok vl →
        rhs.evaluate s = .error e →
        (Expression.binOpE Token.opSlash lhs rhs).evaluate s = .error e)
    ∧ (∀ vl vr : FP, lhs.evaluate s = .ok vl → rhs.evaluate s = .ok vr →
        ((∃ b, vr = FP.fin 0 b) →
            (Expression.binOpE Token.opSlash lhs rhs).evaluate s
              = .error (.divideByZero ((Expression.binOpE Token.opSlash lhs rhs).clone)))
        ∧ (¬(∃ b, vr = FP.fin 0 b) →
            (Expression.binOpE Token.opSlash lhs rhs).evaluate s
              = .ok (FP.fdiv vl vr))) := by
  refine ⟨?_, ?_, ?_⟩
  · intro e he
    simp [Expression.evaluate, he]
  · intro vl e hl hre
    simp [Expression.evaluate, hl, hre]
  · intro vl vr hl hr
    constructor
    · rintro ⟨b, rfl⟩
      simp [Expression.evaluate, hl, hr, Token.type, FP.feq]
    · intro h
      have hz : (FP.feq vr (.fin 0 false) || FP.feq vr (.fin 0 true)) = false := by
        cases vr <;> simp_all [FP.feq]
      simp [Expression.evaluate, hl, hr, Token.type, hz]

/-- C7 (witness): `1 / 0` raises DivideByZero carrying a clone of the
division node. -/
theorem c7_slash_divide_by_zero_iff_witness :
    (Expression.binOpE Token.opSlash
        (Expression.operandE (Token.number (FP.fin 1 false)))
        (Expression.operandE (Token.number (FP.fin 0 false)))).evaluate ⟨[]⟩
      = .error (.divideByZero ((Expression.binOpE Token.opSlash
          (Expression.operandE (Token.number (FP.fin 1 false)))
          (Expression.operandE (Token.number (FP.fin 0 false)))).clone)) :=
  ((c7_slash_divide_by_zero_iff
      (Expression.operandE (Token.number (FP.fin 1 false)))
      (Expression.operandE (Token.number (FP.fin 0 false))) ⟨[]⟩).2.2
    (FP.fin 1 false) (FP.fin 0 false) rfl rfl).1 ⟨false, rfl⟩

/-- C8: for operand tokens `a`, `b`, `c`, the token sequence `a + b * c`
parses as `a + (b * c)`, `a - b - c` parses as `(a - b) - c`, and
`a ^ b ^ c` parses as `a ^ (b ^ c)` — multiplication outbinds addition, the
left-associative operators stop the infix loop on `bp <= min_bp`, and the
right-associative `Caret` stops only on `bp < min_bp`. -/
theorem c8_precedence_and_associativity (a b c : Token)
    (ha : a.is_operand_token = true) (hb : b.is_operand_token = true)
    (hc : c.is_operand_token = true) :
    Parser.parse_expression ⟨[a, Token.opPlus, b, Token.opAsterisk, c, Token.endOfFile]⟩
      = .ok (.binOpE Token.opPlus (.operandE a)
          (.binOpE Token.opAsterisk (.operandE b) (.operandE c)), ⟨[Token.endOfFile]⟩)
    ∧ Parser.parse_expression ⟨[a, Token.opMinus, b, Token.opMinus, c, Token.endOfFile]⟩
      = .ok (.binOpE Token.opMinus (.binOpE Token.opMinus (.operandE a) (.operandE b))
          (.operandE c), ⟨[Token.endOfFile]⟩)
    ∧ Parser.parse_expression ⟨[a, Token.opCaret, b, Token.opCaret, c, Token.endOfFile]⟩
      = .ok (.binOpE Token.opCaret (.operandE a)
          (.binOpE Token.opCaret (.operandE b) (.operandE c)), ⟨[Token.endOfFile]⟩) := by
  rcases operand_token_shape a ha with ⟨v, rfl⟩ | ⟨nm, rfl⟩ <;>
    rcases operand_token_shape b hb with ⟨w, rfl⟩ | ⟨nm', rfl⟩ <;>
      rcases operand_token_shape c hc with ⟨u, rfl⟩ | ⟨nm'', rfl⟩ <;>
        exact ⟨rfl, rfl, rfl⟩

/-- C8 (witness): the three parses at the concrete operand tokens 1, 2, 3. -/
theorem c8_precedence_and_associativity_witness :
    Parser.parse_expression ⟨[Token.number (FP.fin 1 false), Token.opPlus,
        Token.number (FP.fin 2 false), Token.opAsterisk,
        Token.number (FP.fin 3 false), Token.endOfFile]⟩
      = .ok (.binOpE Token.opPlus (.operandE (Token.number (FP.fin 1 false)))
          (.binOpE Token.opAsterisk (.operandE (Token.number (FP.fin 2 false)))
            (.operandE (Token.number (FP.fin 3 false)))), ⟨[Token.endOfFile]⟩)
    ∧ Parser.parse_expression ⟨[Token.number (FP.fin 1 false), Token.opMinus,
        Token.number (FP.fin 2 false), Token.opMinus,
        Token.number (FP.fin 3 false), Token.endOfFile]⟩
      = .ok (.binOpE Token.opMinus (.binOpE Token.opMinus
            (.operandE (Token.number (FP.fin 1 false)))
            (.operandE (Token.number (FP.fin 2 false))))
          (.operandE (Token.number (FP.fin 3 false))), ⟨[Token.endOfFile]⟩)
    ∧ Parser.parse_expression ⟨[Token.number (FP.fin 1 false), Token.opCaret,
        Token.number (FP.fin 2 false), Token.opCaret,
        Token.number (FP.fin 3 false), Token.endOfFile]⟩
      = .ok (.binOpE Token.opCaret (.operandE (Token.number (FP.fin 1 false)))
          (.binOpE Token.opCaret (.operandE (Token.number (FP.fin 2 false)))
            (.operandE (Token.number (FP.fin 3 false)))), ⟨[Token.endOfFile]⟩) :=
  c8_precedence_and_associativity (Token.number (FP.fin 1 false))
    (Token.number (FP.fin 2 false)) (Token.number (FP.fin 3 false)) rfl rfl rfl

/-- C9: the claim states the token-stream constructor establishes the
`EndOfInput`-sentinel invariant for every vector including the empty one.
On the empty vector the source calls `std::vector::back()` — undefined
behaviour — instead of appending the sentinel (modelled as `none`),
contradicting the claim and the constructor's own header documentation.  On
non-empty vectors the sentinel is appended when absent, `next` at the end
returns the sentinel without advancing, and `give_back` prepends. -/
theorem c9_tokenlist_empty_vector_ub :
    TokenList.ofVec ([] : List Token) = none
    ∧ TokenList.ofVec [Token.opPlus] = some ⟨[Token.opPlus, Token.endOfFile]⟩
    ∧ TokenList.ofVec [Token.opPlus, Token.endOfFile]
        = some ⟨[Token.opPlus, Token.endOfFile]⟩
    ∧ (TokenList.mk [Token.endOfFile]).next = (Token.endOfFile, ⟨[Token.endOfFile]⟩)
    ∧ (TokenList.mk [Token.endOfFile]).give_back Token.opPlus
        = ⟨[Token.opPlus, Token.endOfFile]⟩ := by decide

/-- C10: token equality compares `Number` payloads with the floating-point
`==`, so a `Number` token with NaN payload is not equal to itself, while
every token of another kind, and every `Number` token with a non-NaN
payload, is equal to itself. -/
theorem c10_token_eq_nan_not_reflexive :
    Token.tokEq (Token.number FP.nan) (Token.number FP.nan) = false
    ∧ ∀ t : Token, (∀ x : FP, t = Token.number x → x ≠ FP.nan) →
        Token.tokEq t t = true := by
  refine ⟨rfl, ?_⟩
  intro t h
  cases t <;> simp [Token.tokEq, Token.type]
  case number v =>
    have := h v rfl
    cases v <;> simp_all [FP.feq, FP.isNaN]

/-- C10 (witness): reflexivity at a concrete non-number token. -/
theorem c10_token_eq_nan_not_reflexive_witness :
    Token.tokEq (Token.identifier "x") (Token.identifier "x") = true :=
  c10_token_eq_nan_not_reflexive.2 (Token.identifier "x")
    (fun _ h => by simp at h)
